import Mathlib

/-!
Shallow embedding of src/bot/tf_api_client.py and proofs about the claims of
the specification.  The pure rank-authority functions are translated directly;
the stateful client methods are translated as pure functions whose extra
arguments stand for the awaited results of the network calls they make, and
whose results record which further requests would be issued.
-/

/-- ASCII apostrophe, as a one-character string used to build the message
literals of the source. -/
def apos : String := String.singleton (Char.ofNat 39)

/-- Association-list lookup with string keys, modelling a Python dict lookup:
the value at the first matching key, or none. -/
def dlookup {α : Type} : List (String × α) → String → Option α
  | [], _ => none
  | p :: t, k => if k = p.1 then some p.2 else dlookup t k

/-- The fixed table RANK_HIERARCHY of tf_api_client.py: eleven named levels,
lower number meaning lower rank. -/
def RANK_HIERARCHY : List (String × Nat) :=
  [("Aspirant", 1), ("Novice", 2), ("Adept", 3), ("Crusader", 4),
   ("Paladin", 5), ("Exemplar", 6), ("Prospect", 7), ("Commander", 8),
   ("Marshal", 9), ("General", 10), ("Chief General", 11)]

/-- The names of the eleven configured ranks, in table order. -/
def rankNames : List String := RANK_HIERARCHY.map Prod.fst

/-- get_rank_level of tf_api_client.py: RANK_HIERARCHY.get(rank_name, 0). -/
def get_rank_level (rank_name : String) : Nat :=
  (dlookup RANK_HIERARCHY rank_name).getD 0

/-- Python truthiness of an int-or-None argument: None and 0 are falsy. -/
def truthyInt : Option Int → Bool
  | none => false
  | some n => n != 0

/-- Python truthiness of a str-or-None argument: None and the empty string are
falsy. -/
def truthyStr : Option String → Bool
  | none => false
  | some s => s != ""

/-- The denial message can_modify_rank builds when the actor level is not
strictly above the target level (the three concatenated f-string pieces of the
source). -/
def levelDenialMsg (user_rank target_rank : String) : String :=
  "You don" ++ apos ++ "t have permission to change this member" ++ apos ++
  "s rank. The target is a **" ++ target_rank ++ "** and you are a **" ++
  user_rank ++ "**. You can only change ranks of members below your level."

/-- can_modify_rank of tf_api_client.py.  The first guard is the Python truth
test `target_member_id and user_member_id and target_member_id == user_member_id`,
so a missing id or an id equal to 0 makes the guard fall through. -/
def can_modify_rank (user_rank target_rank : String)
    (target_member_id : Option Int) (user_member_id : Option Int) :
    Bool × String :=
  if truthyInt target_member_id && truthyInt user_member_id &&
      (target_member_id == user_member_id) then
    (false, "You cannot change your own rank.")
  else
    let user_level := get_rank_level user_rank
    let target_level := get_rank_level target_rank
    if user_level = 0 then
      (false, "Unknown user rank: " ++ user_rank)
    else if target_level = 0 then
      (false, "Unknown target rank: " ++ target_rank)
    else if user_level ≤ target_level then
      (false, levelDenialMsg user_rank target_rank)
    else
      (true, "Permission granted")

/-- Whether the pattern is an initial segment of the character list. -/
def startsWithChars : List Char → List Char → Bool
  | _, [] => true
  | [], _ :: _ => false
  | a :: s, b :: p => a == b && startsWithChars s p

/-- Whether the pattern occurs contiguously anywhere in the character list. -/
def hasChars : List Char → List Char → Bool
  | [], p => startsWithChars [] p
  | a :: s, p => startsWithChars (a :: s) p || hasChars s p

/-- Whether pat occurs as a contiguous substring of s. -/
def strContainsStr (s pat : String) : Bool :=
  hasChars s.toList pat.toList

/-- C9: get_rank_level maps each of the eleven configured rank names to its
position 1 through 11, with Aspirant lowest at 1 and Chief General highest at
11, maps every name outside the table to 0, and, being a total function,
never raises. -/
theorem claim_C9 :
    get_rank_level "Aspirant" = 1 ∧ get_rank_level "Novice" = 2 ∧
    get_rank_level "Adept" = 3 ∧ get_rank_level "Crusader" = 4 ∧
    get_rank_level "Paladin" = 5 ∧ get_rank_level "Exemplar" = 6 ∧
    get_rank_level "Prospect" = 7 ∧ get_rank_level "Commander" = 8 ∧
    get_rank_level "Marshal" = 9 ∧ get_rank_level "General" = 10 ∧
    get_rank_level "Chief General" = 11 ∧
    (∀ r : String, r ∉ rankNames → get_rank_level r = 0) ∧
    (∀ r ∈ rankNames, 1 ≤ get_rank_level r ∧ get_rank_level r ≤ 11) := by
  refine ⟨rfl, rfl, rfl, rfl, rfl, rfl, rfl, rfl, rfl, rfl, rfl, ?_, by decide⟩
  intro r hr
  simp only [rankNames, RANK_HIERARCHY, List.map_cons, List.mem_cons,
    List.map_nil, List.not_mem_nil, or_false, not_or] at hr
  obtain ⟨h1, h2, h3, h4, h5, h6, h7, h8, h9, h10, h11⟩ := hr
  simp [get_rank_level, RANK_HIERARCHY, dlookup,
    h1, h2, h3, h4, h5, h6, h7, h8, h9, h10, h11]

/-- C9 witness: the unknown name Dragon maps to 0 and the known name Marshal
stays within 1 and 11, both by claim_C9. -/
theorem claim_C9_witness :
    get_rank_level "Dragon" = 0 ∧
    (1 ≤ get_rank_level "Marshal" ∧ get_rank_level "Marshal" ≤ 11) := by
  have h := claim_C9
  exact ⟨h.2.2.2.2.2.2.2.2.2.2.2.1 "Dragon" (by decide),
    h.2.2.2.2.2.2.2.2.2.2.2.2 "Marshal" (by decide)⟩

/-- C2: for rank names A and B drawn from the fixed table and no member ids,
can_modify_rank allows exactly when the level of A strictly exceeds the level
of B, and at equal levels it denies with a reason string embedding both rank
names. -/
theorem claim_C2 :
    ∀ A ∈ rankNames, ∀ B ∈ rankNames,
      (((can_modify_rank A B none none).1 = true) ↔
        get_rank_level A > get_rank_level B) ∧
      (get_rank_level A = get_rank_level B →
        (can_modify_rank A B none none).1 = false ∧
        strContainsStr (can_modify_rank A B none none).2 A = true ∧
        strContainsStr (can_modify_rank A B none none).2 B = true) := by
  decide

/-- C2 witness: claim_C2 applied at Marshal over Novice and at the equal pair
Commander and Commander. -/
theorem claim_C2_witness :
    ((((can_modify_rank "Marshal" "Novice" none none).1 = true) ↔
        get_rank_level "Marshal" > get_rank_level "Novice") ∧
      (get_rank_level "Marshal" = get_rank_level "Novice" →
        (can_modify_rank "Marshal" "Novice" none none).1 = false ∧
        strContainsStr (can_modify_rank "Marshal" "Novice" none none).2 "Marshal" = true ∧
        strContainsStr (can_modify_rank "Marshal" "Novice" none none).2 "Novice" = true)) ∧
    ((((can_modify_rank "Commander" "Commander" none none).1 = true) ↔
        get_rank_level "Commander" > get_rank_level "Commander") ∧
      (get_rank_level "Commander" = get_rank_level "Commander" →
        (can_modify_rank "Commander" "Commander" none none).1 = false ∧
        strContainsStr (can_modify_rank "Commander" "Commander" none none).2 "Commander" = true ∧
        strContainsStr (can_modify_rank "Commander" "Commander" none none).2 "Commander" = true)) :=
  ⟨claim_C2 "Marshal" (by decide) "Novice" (by decide),
   claim_C2 "Commander" (by decide) "Commander" (by decide)⟩

/-- C3: evaluation at the failing input.  With both member ids supplied and
equal to 0, the Python truth test `target_member_id and user_member_id and
target_member_id == user_member_id` is falsy at the first operand, so the
self-modification check is skipped and the change is granted, although both
ids name the same member. -/
theorem claim_C3 :
    can_modify_rank "Marshal" "Novice" (some 0) (some 0) =
      (true, "Permission granted") := by
  decide

/-- C5: when the two ids are unequal or absent, an unknown actor rank is
denied with the message naming that actor rank, and otherwise an unknown
target rank is denied with the message naming that target rank; the actor
check runs first, so it also fires when both ranks are unknown. -/
theorem claim_C5 (A B : String) (t u : Option Int)
    (hids : t ≠ u ∨ t = none ∨ u = none) :
    (get_rank_level A = 0 →
      can_modify_rank A B t u = (false, "Unknown user rank: " ++ A)) ∧
    (get_rank_level A ≠ 0 → get_rank_level B = 0 →
      can_modify_rank A B t u = (false, "Unknown target rank: " ++ B)) := by
  have hguard : (truthyInt t && truthyInt u && (t == u)) = false := by
    rcases hids with h | h | h
    · have : (t == u) = false := by
        simp [beq_eq_false_iff_ne, h]
      simp [this]
    · subst h; simp [truthyInt]
    · subst h; simp [truthyInt]
  constructor
  · intro hA
    simp [can_modify_rank, hguard, hA]
  · intro hA hB
    simp [can_modify_rank, hguard, hA, hB]

/-- C5 witness: claim_C5 applied with absent ids, once with an unknown actor
rank and once with a known actor rank but unknown target rank. -/
theorem claim_C5_witness :
    can_modify_rank "Wizard" "Novice" none none =
      (false, "Unknown user rank: " ++ "Wizard") ∧
    can_modify_rank "Novice" "Wizard" none none =
      (false, "Unknown target rank: " ++ "Wizard") :=
  ⟨(claim_C5 "Wizard" "Novice" none none (Or.inr (Or.inl rfl))).1 (by decide),
   (claim_C5 "Novice" "Wizard" none none (Or.inr (Or.inl rfl))).2
     (by decide) (by decide)⟩

/-- A member record as used by the client: the two keys change_rank_by_name
reads from the dict returned by the search endpoint. -/
structure Member where
  id : Int
  current_rank : String
  deriving DecidableEq

/-- The shape of the search_member response that find_member_by_name reads:
its success flag and its matches list (an error envelope from the request
primitive carries no matches key, which reads as an empty list). -/
structure SearchResult where
  success : Bool
  matchList : List Member
  deriving DecidableEq

/-- find_member_by_name of tf_api_client.py, with the awaited search_member
response passed as the argument: if the response reports success and a
non-empty matches list, the first match; otherwise None (never an error
envelope). -/
def find_member_by_name (result : SearchResult) : Option Member :=
  if result.success then result.matchList.head? else none

/-- The arguments of a change_member_rank call, recording a rank-mutation
request issued to the PATCH endpoint. -/
structure MutCall where
  member_id : Int
  new_rank : String
  reason : Option String
  discord_user_id : Option String
  deriving DecidableEq

/-- The result of change_rank_by_name: either one of its two literal error
envelopes, with success False and the given error and message fields, or a
delegation to change_member_rank carrying the arguments of the issued
rank-mutation request. -/
inductive ChangeRankResult where
  | errorEnvelope (error message : String)
  | delegated (call : MutCall)
  deriving DecidableEq

/-- change_rank_by_name of tf_api_client.py.  The argument findResult stands
for the awaited result of find_member_by_name; the second component of the
returned pair records whether can_modify_rank was invoked.  The guard on the
actor rank is the Python truth test `if user_rank:`, so None and the empty
string both skip the permission check. -/
def change_rank_by_name (member_name new_rank : String)
    (reason : Option String) (discord_user_id : Option String)
    (user_rank : Option String) (findResult : Option Member) :
    ChangeRankResult × Bool :=
  match findResult with
  | none =>
    (.errorEnvelope "member_not_found"
      ("Could not find member with name \"" ++ member_name ++ "\""), false)
  | some member =>
    match user_rank with
    | some ur =>
      if ur ≠ "" then
        let checked := can_modify_rank ur member.current_rank none none
        if checked.1 then
          (.delegated ⟨member.id, new_rank, reason, discord_user_id⟩, true)
        else
          (.errorEnvelope "permission_denied" checked.2, true)
      else
        (.delegated ⟨member.id, new_rank, reason, discord_user_id⟩, false)
    | none =>
      (.delegated ⟨member.id, new_rank, reason, discord_user_id⟩, false)

/-- C10: find_member_by_name returns the first element of the matches list
exactly when the response is successful and the list is non-empty, and
returns None in every other case. -/
theorem claim_C10 (r : SearchResult) :
    (∀ m : Member, find_member_by_name r = some m ↔
      (r.success = true ∧ r.matchList.head? = some m)) ∧
    (find_member_by_name r = none ↔
      (r.success = false ∨ r.matchList = [])) := by
  obtain ⟨s, ms⟩ := r
  cases s <;> cases ms <;> simp [find_member_by_name]

/-- C10 witness: claim_C10 at a successful response with one match and at a
failed response. -/
theorem claim_C10_witness :
    find_member_by_name ⟨true, [⟨7, "Novice"⟩]⟩ = some ⟨7, "Novice"⟩ ∧
    find_member_by_name ⟨false, [⟨7, "Novice"⟩]⟩ = none :=
  ⟨((claim_C10 ⟨true, [⟨7, "Novice"⟩]⟩).1 ⟨7, "Novice"⟩).2 (by decide),
   ((claim_C10 ⟨false, [⟨7, "Novice"⟩]⟩).2).2 (by decide)⟩

/-- C6: when find_member_by_name resolves no member, change_rank_by_name
returns the member_not_found envelope whose message names the searched name,
the permission check is not invoked, and no rank-mutation request is
issued. -/
theorem claim_C6 (member_name new_rank : String)
    (reason : Option String) (discord_user_id : Option String)
    (user_rank : Option String) :
    change_rank_by_name member_name new_rank reason discord_user_id
        user_rank none =
      (.errorEnvelope "member_not_found"
        ("Could not find member with name \"" ++ member_name ++ "\""), false) ∧
    ∀ c : MutCall,
      (change_rank_by_name member_name new_rank reason discord_user_id
          user_rank none).1 ≠ .delegated c := by
  constructor
  · rfl
  · intro c h
    simp [change_rank_by_name] at h

/-- C6 witness: claim_C6 at a concrete search that resolves no member. -/
theorem claim_C6_witness :
    change_rank_by_name "ghost" "Adept" none none none none =
      (.errorEnvelope "member_not_found"
        ("Could not find member with name \"" ++ "ghost" ++ "\""), false) :=
  (claim_C6 "ghost" "Adept" none none none).1

/-- At equal actor and target rank names with no ids, can_modify_rank always
denies: either the shared name is unknown, so the actor-side check fires, or
the two levels are equal and the strict comparison fails. -/
theorem can_modify_rank_equal_names (s : String) :
    (can_modify_rank s s none none).1 = false := by
  by_cases h : get_rank_level s = 0
  · simp [can_modify_rank, truthyInt, h]
  · simp [can_modify_rank, truthyInt, h]

/-- C1 (amended): when find_member_by_name resolves a target and a supplied
actor rank is non-empty, a denial by can_modify_rank makes change_rank_by_name
return success False, error permission_denied and a message exactly equal to
the reason string of can_modify_rank, and the rank-mutation request is never
issued; a supplied empty-string rank instead skips the check, see the
counterexample. -/
theorem claim_C1 (member_name new_rank : String)
    (reason : Option String) (discord_user_id : Option String)
    (ur : String) (m : Member) (hur : ur ≠ "")
    (hdeny : (can_modify_rank ur m.current_rank none none).1 = false) :
    change_rank_by_name member_name new_rank reason discord_user_id
        (some ur) (some m) =
      (.errorEnvelope "permission_denied"
        (can_modify_rank ur m.current_rank none none).2, true) ∧
    ∀ c : MutCall,
      (change_rank_by_name member_name new_rank reason discord_user_id
          (some ur) (some m)).1 ≠ .delegated c := by
  have heq : change_rank_by_name member_name new_rank reason discord_user_id
      (some ur) (some m) =
      (.errorEnvelope "permission_denied"
        (can_modify_rank ur m.current_rank none none).2, true) := by
    simp [change_rank_by_name, hur, hdeny]
  refine ⟨heq, ?_⟩
  intro c hc
  rw [heq] at hc
  simp at hc

/-- C1 witness: claim_C1 at a Novice actor over a Marshal target, whose
permission check is denied. -/
theorem claim_C1_witness :
    change_rank_by_name "bob" "Paladin" none none
        (some "Novice") (some ⟨3, "Marshal"⟩) =
      (.errorEnvelope "permission_denied"
        (can_modify_rank "Novice" "Marshal" none none).2, true) :=
  (claim_C1 "bob" "Paladin" none none "Novice" ⟨3, "Marshal"⟩
    (by decide) (by decide)).1

/-- C1 counterexample: the empty string is a supplied actor rank and
can_modify_rank denies it, yet the Python truth test `if user_rank:` treats it
as falsy, so the permission check is skipped and the rank-mutation request is
issued. -/
theorem claim_C1_counterexample :
    (can_modify_rank "" "Novice" none none).1 = false ∧
    change_rank_by_name "bob" "Adept" none none
        (some "") (some ⟨3, "Novice"⟩) =
      (.delegated ⟨3, "Adept", none, none⟩, false) := by
  decide

/-- C4 (amended): when the supplied actor rank is non-empty and equal to the
resolved target member rank — as holds when the actor truthfully reports its
own current rank while targeting itself — change_rank_by_name denies with
permission_denied and never issues the rank-mutation request; with no actor
rank supplied there is no self-check at all, see the counterexample. -/
theorem claim_C4 (member_name new_rank : String)
    (reason : Option String) (discord_user_id : Option String)
    (m : Member) (h : m.current_rank ≠ "") :
    change_rank_by_name member_name new_rank reason discord_user_id
        (some m.current_rank) (some m) =
      (.errorEnvelope "permission_denied"
        (can_modify_rank m.current_rank m.current_rank none none).2, true) ∧
    ∀ c : MutCall,
      (change_rank_by_name member_name new_rank reason discord_user_id
          (some m.current_rank) (some m)).1 ≠ .delegated c := by
  have heq : change_rank_by_name member_name new_rank reason discord_user_id
      (some m.current_rank) (some m) =
      (.errorEnvelope "permission_denied"
        (can_modify_rank m.current_rank m.current_rank none none).2, true) := by
    simp [change_rank_by_name, h, can_modify_rank_equal_names m.current_rank]
  refine ⟨heq, ?_⟩
  intro c hc
  rw [heq] at hc
  simp at hc

/-- C4 witness: claim_C4 at a member that reports its own rank Novice while
targeting its own record. -/
theorem claim_C4_witness :
    change_rank_by_name "alice" "Marshal" none (some "7")
        (some "Novice") (some ⟨7, "Novice"⟩) =
      (.errorEnvelope "permission_denied"
        (can_modify_rank "Novice" "Novice" none none).2, true) :=
  (claim_C4 "alice" "Marshal" none (some "7") ⟨7, "Novice"⟩ (by decide)).1

/-- C4 counterexample: the member with id 7 targets its own record (the search
resolves to the record with id 7) and supplies no actor rank; nothing on this
path compares identities — change_rank_by_name passes no member ids to
can_modify_rank — and the rank-mutation request for its own id 7 is issued. -/
theorem claim_C4_counterexample :
    change_rank_by_name "alice" "Marshal" none (some "7") none
        (some ⟨7, "Novice"⟩) =
      (.delegated ⟨7, "Marshal", none, some "7"⟩, false) := by
  decide

/-- A JSON scalar value, enough for the envelope fields the claims inspect. -/
inductive JVal where
  | jbool (b : Bool)
  | jstr (s : String)
  | jint (n : Int)
  deriving DecidableEq

/-- A parsed JSON object, as an association list of fields. -/
abbrev Dict := List (String × JVal)

/-- The Python dict display with a trailing unpacking, as in the rate-limit
branch of _request: the fixed entries first, then **data, whose keys override
the fixed keys because the unpacking comes last. -/
def pyMerge (base data : Dict) : Dict :=
  base.filter (fun p => (dlookup data p.1).isNone) ++ data

/-- The outcome of the awaited HTTP call inside the try block of _request:
a response with a status code and a parsed JSON body, or an aiohttp client
error raised while connecting, reading or parsing (connection, DNS, timeout),
or any other exception raised inside the try block. -/
inductive HttpOutcome where
  | response (status : Nat) (data : Dict)
  | clientError (e : String)
  | otherError (e : String)
  deriving DecidableEq

/-- The fixed rate-limit message of _request. -/
def rateLimitMsg : String :=
  "Rate limit exceeded. Please wait a moment and try again."

/-- The _request primitive of tf_api_client.py, with the awaited transport
outcome passed as an argument; method and endpoint are carried but do not
affect the classification.  Every branch returns a dict: on status 429 the
fixed rate-limit envelope with the body unpacked over it, on any other status
the body itself, and each except branch its error envelope, so the embedded
function is total and no exception escapes. -/
def tfRequest (method endpoint : String) (outcome : HttpOutcome) : Dict :=
  match outcome with
  | .response status data =>
    if status = 429 then
      pyMerge [("success", .jbool false), ("error", .jstr "rate_limit"),
               ("message", .jstr rateLimitMsg)] data
    else data
  | .clientError e =>
    [("success", .jbool false), ("error", .jstr "connection_error"),
     ("message", .jstr ("Failed to connect to TF System: " ++ e))]
  | .otherError e =>
    [("success", .jbool false), ("error", .jstr "unknown_error"),
     ("message", .jstr ("Unexpected error: " ++ e))]

/-- Lookup distributes over list append, the left list winning when it has
the key. -/
theorem dlookup_append {α : Type} (l₁ l₂ : List (String × α)) (k : String) :
    dlookup (l₁ ++ l₂) k =
      match dlookup l₁ k with
      | some v => some v
      | none => dlookup l₂ k := by
  induction l₁ with
  | nil => simp [dlookup]
  | cons p t ih =>
    by_cases h : k = p.1
    · simp [dlookup, h]
    · simp [dlookup, h, ih]

/-- A key the data dict defines does not survive the merge filter on the
base dict. -/
theorem dlookup_filter_of_some {α : Type} (base data : List (String × α))
    (k : String) (h : (dlookup data k).isSome) :
    dlookup (base.filter (fun p => (dlookup data p.1).isNone)) k = none := by
  induction base with
  | nil => simp [dlookup]
  | cons p t ih =>
    rw [List.filter_cons]
    by_cases hp : (dlookup data p.1).isNone = true
    · have hk : ¬ k = p.1 := by
        intro e
        rw [e] at h
        rw [Option.isNone_iff_eq_none] at hp
        rw [hp] at h
        simp at h
      simp only [hp, if_true]
      simp [dlookup, hk, ih]
    · simp only [hp, if_false]
      exact ih

/-- A key the data dict lacks passes through the merge filter unchanged. -/
theorem dlookup_filter_of_none {α : Type} (base data : List (String × α))
    (k : String) (h : dlookup data k = none) :
    dlookup (base.filter (fun p => (dlookup data p.1).isNone)) k =
      dlookup base k := by
  induction base with
  | nil => rfl
  | cons p t ih =>
    rw [List.filter_cons]
    by_cases hk : k = p.1
    · have hp : (dlookup data p.1).isNone = true := by
        rw [← hk, h]; rfl
      simp only [hp, if_true]
      simp [dlookup, hk]
    · by_cases hp : (dlookup data p.1).isNone = true
      · simp only [hp, if_true]
        simp [dlookup, hk, ih]
      · simp [hp]
        rw [ih]
        simp [dlookup, hk]

/-- Lookup in the Python merge: the data keys win, the base fills the rest. -/
theorem dlookup_pyMerge (base data : Dict) (k : String) :
    dlookup (pyMerge base data) k =
      match dlookup data k with
      | some v => some v
      | none => dlookup base k := by
  unfold pyMerge
  rw [dlookup_append]
  cases hd : dlookup data k with
  | some v =>
    rw [dlookup_filter_of_some base data k (by rw [hd]; rfl)]
  | none =>
    rw [dlookup_filter_of_none base data k hd]
    simp only [hd]
    cases dlookup base k <;> rfl

/-- C7 (amended): on HTTP 429 with a parsed JSON body, the request primitive
returns the fixed rate-limit envelope with the body fields merged in, the body
taking precedence on key collisions: every field of the body is carried
through unchanged, and the success, error and message fields hold False,
rate_limit and the fixed rate-limit text whenever the body itself lacks
them. -/
theorem claim_C7 (method endpoint : String) (data : Dict) :
    (∀ k v, dlookup data k = some v →
      dlookup (tfRequest method endpoint (.response 429 data)) k = some v) ∧
    (dlookup data "success" = none →
      dlookup (tfRequest method endpoint (.response 429 data)) "success" =
        some (.jbool false)) ∧
    (dlookup data "error" = none →
      dlookup (tfRequest method endpoint (.response 429 data)) "error" =
        some (.jstr "rate_limit")) ∧
    (dlookup data "message" = none →
      dlookup (tfRequest method endpoint (.response 429 data)) "message" =
        some (.jstr rateLimitMsg)) := by
  have hreq : tfRequest method endpoint (.response 429 data) =
      pyMerge [("success", .jbool false), ("error", .jstr "rate_limit"),
               ("message", .jstr rateLimitMsg)] data := by
    simp [tfRequest]
  refine ⟨?_, ?_, ?_, ?_⟩
  · intro k v hk
    rw [hreq, dlookup_pyMerge, hk]
  · intro hs
    rw [hreq, dlookup_pyMerge, hs]
    rfl
  · intro he
    rw [hreq, dlookup_pyMerge, he]
    rfl
  · intro hm
    rw [hreq, dlookup_pyMerge, hm]
    rfl

/-- C7 witness: claim_C7 at a body carrying only a retry hint: the hint is
carried through and the three fixed fields are present. -/
theorem claim_C7_witness :
    dlookup (tfRequest "GET" "/members"
        (.response 429 [("retry_after", JVal.jint 5)])) "retry_after" =
      some (JVal.jint 5) ∧
    dlookup (tfRequest "GET" "/members"
        (.response 429 [("retry_after", JVal.jint 5)])) "success" =
      some (.jbool false) ∧
    dlookup (tfRequest "GET" "/members"
        (.response 429 [("retry_after", JVal.jint 5)])) "error" =
      some (.jstr "rate_limit") ∧
    dlookup (tfRequest "GET" "/members"
        (.response 429 [("retry_after", JVal.jint 5)])) "message" =
      some (.jstr rateLimitMsg) :=
  ⟨(claim_C7 "GET" "/members" [("retry_after", JVal.jint 5)]).1
      "retry_after" (JVal.jint 5) (by decide),
   (claim_C7 "GET" "/members" [("retry_after", JVal.jint 5)]).2.1 (by decide),
   (claim_C7 "GET" "/members" [("retry_after", JVal.jint 5)]).2.2.1 (by decide),
   (claim_C7 "GET" "/members" [("retry_after", JVal.jint 5)]).2.2.2 (by decide)⟩

/-- C7 counterexample: the body is unpacked after the fixed fields, so a 429
body that itself carries success True overrides the fixed field and the
returned success field is not False. -/
theorem claim_C7_counterexample :
    dlookup (tfRequest "GET" "/status"
        (.response 429 [("success", JVal.jbool true)])) "success" =
      some (JVal.jbool true) := by
  decide

/-- C8: the request primitive is a total function of the transport outcome —
the embedded form of the try block that lets no exception escape — and every
path returns an envelope: an aiohttp client error (connection, DNS, timeout)
yields the connection_error envelope and any other exception the
unknown_error envelope, each with success False and the underlying cause
appended to the message. -/
theorem claim_C8 (method endpoint : String) (o : HttpOutcome) :
    (∃ d : Dict, tfRequest method endpoint o = d) ∧
    (∀ e, o = .clientError e →
      tfRequest method endpoint o =
        [("success", .jbool false), ("error", .jstr "connection_error"),
         ("message", .jstr ("Failed to connect to TF System: " ++ e))]) ∧
    (∀ e, o = .otherError e →
      tfRequest method endpoint o =
        [("success", .jbool false), ("error", .jstr "unknown_error"),
         ("message", .jstr ("Unexpected error: " ++ e))]) := by
  refine ⟨⟨tfRequest method endpoint o, rfl⟩, ?_, ?_⟩
  · intro e he
    subst he
    rfl
  · intro e he
    subst he
    rfl

/-- C8 witness: claim_C8 at a refused connection and at an unexpected
exception. -/
theorem claim_C8_witness :
    tfRequest "GET" "/status" (.clientError "Connection refused") =
      [("success", .jbool false), ("error", .jstr "connection_error"),
       ("message",
        .jstr ("Failed to connect to TF System: " ++ "Connection refused"))] ∧
    tfRequest "POST" "/auth/verify" (.otherError "boom") =
      [("success", .jbool false), ("error", .jstr "unknown_error"),
       ("message", .jstr ("Unexpected error: " ++ "boom"))] :=
  ⟨(claim_C8 "GET" "/status" (.clientError "Connection refused")).2.1
      "Connection refused" rfl,
   (claim_C8 "POST" "/auth/verify" (.otherError "boom")).2.2 "boom" rfl⟩
